import Mathlib

/-
  Verification of the Venmo integration client (venmo_integration.py).

  The file shallowly embeds the client's data flow: JSON values are an
  inductive type, network responses are passed in as explicit arguments
  (each operation receives the already-parsed body the transport would
  deliver), and fallible code returns `Except VenmoError`.  The value an
  operation would POST is the value the embedded function returns, so
  "the transfer POST is never issued" is "the function returns `.error`".
-/

namespace Venmo

/-- JSON values, as delivered by the transport after parsing.  Numbers are
modelled as integers (every numeric field the client consumes is compared or
copied verbatim, never divided). -/
inductive Json where
  | null
  | bool (b : Bool)
  | num (n : Int)
  | str (s : String)
  | arr (elems : List Json)
  | obj (fields : List (String × Json))

/-- Python `d.get(key)` on a parsed JSON value: a lookup that yields `none`
both when the key is absent and when the value is not an object. -/
def pyDictGet : Json → String → Option Json
  | .obj fields, key => fields.lookup key
  | _, _ => none

/-- Python truthiness of a JSON value: `None`, `False`, `0`, `""`, `[]` and
an empty object are falsy, everything else is truthy. -/
def pyTruthy : Json → Bool
  | .null => false
  | .bool b => b
  | .num n => decide (n ≠ 0)
  | .str s => decide (s ≠ "")
  | .arr es => !es.isEmpty
  | .obj fs => !fs.isEmpty

/-- Truthiness of a value that may also be Python `None` (absent). -/
def optTruthy : Option Json → Bool
  | none => false
  | some j => pyTruthy j

/-- Python `not x` applied to the `is_limited_account` attribute, which is
`None` until `get_identity` has run and afterwards holds the extracted JSON
value.  `not None` is `True` in Python: an unknown flag behaves exactly like
an explicit `False` here. -/
def pyNot : Option Json → Bool
  | none => true
  | some v => !pyTruthy v

/-- Python `x == "s"` for a JSON value `x` and a string literal `s`:
true exactly when `x` is that string. -/
def jsonEqStr : Json → String → Bool
  | .str t, s => t == s
  | _, _ => false

/-- Python `x == "s"` where `x` may be `None` (e.g. the result of
`dict.get`): `None == "s"` is `False`. -/
def optJsonEqStr : Option Json → String → Bool
  | some j, s => jsonEqStr j s
  | none, _ => false

/-- Python `str(x)` as used inside the error f-strings.  Scalars render as in
Python; container rendering is abbreviated (Python would render them via
`repr`; every upstream error message the client sees is a string, so the
container arms are never exercised by the claims). -/
def pyStr : Json → String
  | .null => "None"
  | .bool true => "True"
  | .bool false => "False"
  | .num n => toString n
  | .str s => s
  | .arr _ => "[array]"
  | .obj _ => "[object]"

/-- Modelled from the spec: the error taxonomy of
`submodule_integrations.utils.errors` (that module is not part of this
repository's source).  Each error carries a human-readable message, the
originating HTTP status where applicable, and the upstream error code.
`extractionError` is the failure `safe_get` raises when a field path is
absent, carrying the path and the calling operation's name; `typeError`
stands for the Python `TypeError` that a non-numeric balance or non-string
user id would trigger. -/
inductive VenmoError where
  | authError (message : String) (status : Nat) (code : Json)
  | apiError (integration : String) (message : String) (status : Nat) (code : Option Json)
  | extractionError (path : List String) (operation : String)
  | typeError (operation : String)

/-- The value of `self.integration_name`, set by `Integration.__init__("venmo")`. -/
def integration_name : String := "venmo"

def safe_get_aux (operation : String) (path0 : List String) :
    Json → List String → Except VenmoError Json
  | data, [] => .ok data
  | data, key :: rest =>
    match pyDictGet data key with
    | some v => safe_get_aux operation path0 v rest
    | none => .error (.extractionError path0 operation)

/-- Modelled from the spec: `Integration.safe_get` (the base class is not
part of this repository's source).  Walks the nested path; when any step is
absent it raises an extraction error naming the requested path and the
calling operation, instead of substituting a default. -/
def safe_get (data : Json) (path : List String) (operation : String) :
    Except VenmoError Json :=
  safe_get_aux operation path data path

/-- Model of `_handle_response`: status 200 returns the parsed body; otherwise the
error message and code are read defensively from `body.error` (defaults
`"Unknown error"` and `str(status)`), then 401 raises the auth error, a 400
whose upstream message is exactly `"Resource not found."` raises the
not-found API error, and anything else raises the generic API error with
`" (HTTP {status})"` appended to the upstream message. -/
def handle_response (status : Nat) (body : Json) : Except VenmoError Json :=
  if status = 200 then .ok body
  else
    let error_obj := (pyDictGet body "error").getD (.obj [])
    let error_message := (pyDictGet error_obj "message").getD (.str "Unknown error")
    let error_code := (pyDictGet error_obj "code").getD (.str (toString status))
    if status = 401 then
      .error (.authError ("Venmo: " ++ pyStr error_message) status error_code)
    else if status = 400 ∧ jsonEqStr error_message "Resource not found." = true then
      .error (.apiError integration_name "Resource not found." status (some error_code))
    else
      .error (.apiError integration_name
        (pyStr error_message ++ " (HTTP " ++ toString status ++ ")")
        status (some error_code))

/-- The mutable attributes of a `VenmoIntegration` object.
`authorization_token` and `headers` are only populated by `initialize`,
`is_limited_account` only by `get_identity`. -/
structure VenmoIntegration where
  url : String
  user_agent : String
  authorization_token : Option String
  headers : List (String × String)
  identityJson : Option Json
  transactionJson : Option Json
  is_limited_account : Option Json

/-- Model of `VenmoIntegration.__init__`.  In Python the default argument
`user_agent: str = UserAgent().random` is evaluated once, when the class
body is executed, so every instance constructed without an explicit user
agent shares that single random draw.  We make the stream of random draws an
explicit argument: `draws 0` is the draw taken at class-definition time, and
construction itself consumes no further draw. -/
def venmo_construct (draws : Nat → String) (user_agent : Option String) :
    VenmoIntegration :=
  { url := "https://api.venmo.com/v1"
    user_agent := user_agent.getD (draws 0)
    authorization_token := none
    headers := []
    identityJson := none
    transactionJson := none
    is_limited_account := none }

/-- The per-instance randomization asserted by the spec's words ("a
user-agent string — randomized per instance unless one is supplied"): the
k-th default-constructed instance would take the fresh draw of index k.
Stated only to be compared against `venmo_construct`, which follows the
source. -/
def user_agent_per_instance_claim (draws : Nat → String) (instance_index : Nat)
    (supplied : Option String) : String :=
  supplied.getD (draws instance_index)

/-- Model of `get_identity`, restricted to its state effect: the GET response is
passed in already normalized, and `is_limited_account` is set from
`data.is_limited_account` (an absent field raises). -/
def get_identity (st : VenmoIntegration) (response : Json) :
    Except VenmoError VenmoIntegration :=
  match safe_get response ["data", "is_limited_account"] "get_identity" with
  | .error e => .error e
  | .ok flag => .ok { st with is_limited_account := some flag }

/-- The URL `get_personal_transaction` issues its GET against:
`self.url + "/stories/target-or-actor/" + safe_get(identityJson,
["data","user","id"])`.  Before `initialize` has run, `identityJson` is
`None` and the extraction fails; a non-string id would fail Python's string
concatenation. -/
def get_personal_transaction_url (st : VenmoIntegration) :
    Except VenmoError String :=
  match safe_get (st.identityJson.getD .null) ["data", "user", "id"]
      "get_personal_transaction" with
  | .error e => .error e
  | .ok (.str uid) => .ok (st.url ++ "/stories/target-or-actor/" ++ uid)
  | .ok _ => .error (.typeError "get_personal_transaction")

/-- Model of `initialize(authorization_token, network_requester)`: stores the token,
builds the headers (user agent, JSON content type, bearer token), then runs
`get_identity` and `get_personal_transaction`, caching both responses.  The
two network responses are passed in explicitly. -/
def init_integration (st : VenmoIntegration) (authorization_token : String)
    (identity_response transactions_response : Json) :
    Except VenmoError VenmoIntegration :=
  let st0 := { st with
    authorization_token := some authorization_token
    headers := [("User-Agent", st.user_agent),
                ("Content-Type", "application/json"),
                ("Authorization", "Bearer " ++ authorization_token)] }
  match get_identity st0 identity_response with
  | .error e => .error e
  | .ok st1 =>
    let st2 := { st1 with identityJson := some identity_response }
    match get_personal_transaction_url st2 with
    | .error e => .error e
    | .ok _ => .ok { st2 with transactionJson := some transactions_response }

/-- Model of `get_balance`: a pure read of the cached identity snapshot at
`data.balance`. -/
def get_balance (st : VenmoIntegration) : Except VenmoError Json :=
  safe_get (st.identityJson.getD .null) ["data", "balance"] "get_balance"

/-- The `metadata.expirationStatus` chain of the "other active" check:
`payment_method.get("metadata", {}).get("expirationStatus")`. -/
def expirationStatusOf (pm : Json) : Option Json :=
  pyDictGet ((pyDictGet pm "metadata").getD (.obj [])) "expirationStatus"

/-- One iteration of the `get_payment_methods` scan over a funding
instrument, updating the `(primary_id, backup_id, double_backup_id)`
accumulator.  `notLimited` is the loop-invariant value of
`not self.is_limited_account`. -/
def scanStep (notLimited : Bool) (amount : Int)
    (acc : Option Json × Option Json × Option Json) (pm : Json) :
    Except VenmoError (Option Json × Option Json × Option Json) :=
  match safe_get pm ["roles", "peerPayments"] "get_payment_methods" with
  | .error e => .error e
  | .ok role =>
    if jsonEqStr role "primary" && notLimited then
      match safe_get pm ["metadata", "availableBalance", "value"]
          "get_payment_methods" with
      | .error e => .error e
      | .ok (.num v) =>
        if amount ≤ v then
          match safe_get pm ["id"] "get_payment_methods" with
          | .error e => .error e
          | .ok pid => .ok (some pid, acc.2.1, acc.2.2)
        else .ok acc
      | .ok _ => .error (.typeError "get_payment_methods")
    else if jsonEqStr role "backup" then
      match safe_get pm ["id"] "get_payment_methods" with
      | .error e => .error e
      | .ok bid => .ok (acc.1, some bid, acc.2.2)
    else if jsonEqStr role "none" && optJsonEqStr (expirationStatusOf pm) "active" then
      match safe_get pm ["id"] "get_payment_methods" with
      | .error e => .error e
      | .ok did => .ok (acc.1, acc.2.1, some did)
    else .ok acc

/-- The full scan loop of `get_payment_methods`. -/
def scanWallet (notLimited : Bool) (amount : Int) :
    List Json → (Option Json × Option Json × Option Json) →
    Except VenmoError (Option Json × Option Json × Option Json)
  | [], acc => .ok acc
  | pm :: rest, acc =>
    match scanStep notLimited amount acc pm with
    | .error e => .error e
    | .ok acc1 => scanWallet notLimited amount rest acc1

/-- The priority ladder at the end of `get_payment_methods`: return the
primary candidate if truthy, else the backup candidate if truthy, else the
double-backup candidate if truthy, else `None`. -/
def resolveWallet (notLimited : Bool) (amount : Int) (wallet : List Json) :
    Except VenmoError (Option Json) :=
  match scanWallet notLimited amount wallet (none, none, none) with
  | .error e => .error e
  | .ok (p, b, d) =>
    if optTruthy p then .ok p
    else if optTruthy b then .ok b
    else if optTruthy d then .ok d
    else .ok none

/-- Model of `get_payment_methods(amount)`: the GraphQL wallet response is passed in
already normalized; the wallet list is extracted at
`data.profile.wallet`, scanned, and resolved through the priority ladder.
Iterating a non-list wallet would raise in Python (`typeError` here). -/
def get_payment_methods (is_limited_account : Option Json) (amount : Int)
    (response : Json) : Except VenmoError (Option Json) :=
  match safe_get response ["data", "profile", "wallet"] "get_payment_methods" with
  | .error e => .error e
  | .ok (.arr wallet) => resolveWallet (pyNot is_limited_account) amount wallet
  | .ok _ => .error (.typeError "get_payment_methods")

/-- The body `pay_user` POSTs to `/payments`. -/
structure PaymentBody where
  funding_source_id : Json
  user_id : Json
  audience : String
  amount : Int
  note : String

/-- The body `request_user` POSTs to `/payments` (no funding source). -/
structure RequestBody where
  user_id : Json
  audience : String
  amount : Int
  note : String

/-- Model of `pay_user(user_id, amount, note, privacy)`: resolve the recipient from
the `get_user` response at `data.id`, resolve a funding source via
`get_payment_methods`, raise `"No funding source available."` when the
result is falsy, otherwise build the transfer body.  The returned body is
the POST that would be issued; an `.error` result means no transfer POST
happens. -/
def pay_user (is_limited_account : Option Json)
    (user_response wallet_response : Json)
    (amount : Int) (note privacy : String) :
    Except VenmoError PaymentBody :=
  match safe_get user_response ["data", "id"] "pay_user" with
  | .error e => .error e
  | .ok recipient_id =>
    match get_payment_methods is_limited_account amount wallet_response with
    | .error e => .error e
    | .ok funding_source_id =>
      match funding_source_id with
      | some fid =>
        if pyTruthy fid then
          .ok { funding_source_id := fid
                user_id := recipient_id
                audience := privacy
                amount := amount
                note := note }
        else
          .error (.apiError integration_name "No funding source available." 500 none)
      | none =>
        .error (.apiError integration_name "No funding source available." 500 none)

/-- Model of `request_user(user_id, amount, note, privacy)`: resolve the recipient
from the `get_user` response, then build the transfer body with the negated
amount.  No wallet or limited-account input exists: requesting performs no
funding-source resolution. -/
def request_user (user_response : Json) (amount : Int) (note privacy : String) :
    Except VenmoError RequestBody :=
  match safe_get user_response ["data", "id"] "request_user" with
  | .error e => .error e
  | .ok recipient_id =>
    .ok { user_id := recipient_id
          audience := privacy
          amount := -amount
          note := note }

/- Analysis helpers for the resolver:

The scan loop's three accumulators evolve independently; each is a
last-wins fold over a predicate on the instrument.  These definitions name
the predicates and the fold so the loop can be characterised. -/

/-- The instrument would set `primary_id` on this iteration: peer-payment
role `"primary"`, session not limited, and a numeric available balance of at
least `amount`. -/
def qualifiesPrimary (notLimited : Bool) (amount : Int) (pm : Json) : Bool :=
  match safe_get pm ["roles", "peerPayments"] "get_payment_methods" with
  | .error _ => false
  | .ok role =>
    (jsonEqStr role "primary" && notLimited) &&
      (match safe_get pm ["metadata", "availableBalance", "value"]
          "get_payment_methods" with
       | .ok (.num v) => decide (amount ≤ v)
       | _ => false)

/-- The instrument's peer-payment role is `"backup"`. -/
def isBackupRole (pm : Json) : Bool :=
  match safe_get pm ["roles", "peerPayments"] "get_payment_methods" with
  | .error _ => false
  | .ok role => jsonEqStr role "backup"

/-- The instrument's peer-payment role is `"none"` and its expiration status
is `"active"`. -/
def isActiveOther (pm : Json) : Bool :=
  match safe_get pm ["roles", "peerPayments"] "get_payment_methods" with
  | .error _ => false
  | .ok role => jsonEqStr role "none" && optJsonEqStr (expirationStatusOf pm) "active"

/-- The instrument's `id` field, when extractable. -/
def idValue (pm : Json) : Option Json :=
  match safe_get pm ["id"] "get_payment_methods" with
  | .error _ => none
  | .ok i => some i

/-- A last-wins fold: the value recorded by the scan for one accumulator. -/
def lastWins (c : Json → Bool) (f : Json → Option Json)
    (w : List Json) (a0 : Option Json) : Option Json :=
  w.foldl (fun a pm => if c pm then f pm else a) a0

/-- The `primary_id` accumulator after scanning `w`. -/
def primaryAfter (notLimited : Bool) (amount : Int) (w : List Json)
    (a0 : Option Json) : Option Json :=
  lastWins (qualifiesPrimary notLimited amount) idValue w a0

/-- The `backup_id` accumulator after scanning `w`. -/
def backupAfter (w : List Json) (a0 : Option Json) : Option Json :=
  lastWins isBackupRole idValue w a0

/-- The `double_backup_id` accumulator after scanning `w`. -/
def doubleAfter (w : List Json) (a0 : Option Json) : Option Json :=
  lastWins isActiveOther idValue w a0

/-- An instrument the scan can process without raising: the role is
extractable, the id is extractable, and if the primary branch would read the
balance then the balance is an extractable number. -/
def wellFormedInstrument (notLimited : Bool) (pm : Json) : Bool :=
  match safe_get pm ["roles", "peerPayments"] "get_payment_methods" with
  | .error _ => false
  | .ok role =>
    (if jsonEqStr role "primary" && notLimited then
       match safe_get pm ["metadata", "availableBalance", "value"]
           "get_payment_methods" with
       | .ok (.num _) => true
       | _ => false
     else true) &&
    (match safe_get pm ["id"] "get_payment_methods" with
     | .error _ => false
     | .ok _ => true)

/- Concrete payload builders used by the scenarios. -/

/-- A GraphQL wallet response wrapping an instrument list. -/
def walletResponse (wallet : List Json) : Json :=
  .obj [("data", .obj [("profile", .obj [("wallet", .arr wallet)])])]

/-- A balance-funded instrument with peer-payment role `primary`. -/
def balanceInstrument (id : String) (balance : Int) : Json :=
  .obj [("id", .str id),
        ("roles", .obj [("merchantPayments", .str "none"),
                        ("peerPayments", .str "primary")]),
        ("metadata", .obj [("availableBalance", .obj [("value", .num balance)])])]

/-- An instrument with peer-payment role `backup`. -/
def backupInstrument (id : String) : Json :=
  .obj [("id", .str id),
        ("roles", .obj [("merchantPayments", .str "backup"),
                        ("peerPayments", .str "backup")])]

/-- An instrument with peer-payment role `none` and expiration status
`active`. -/
def activeCardInstrument (id : String) : Json :=
  .obj [("id", .str id),
        ("roles", .obj [("merchantPayments", .str "primary"),
                        ("peerPayments", .str "none")]),
        ("metadata", .obj [("expirationStatus", .str "active")])]

/-- A `get_user` response resolving to recipient id `rid`. -/
def userResponse (rid : String) : Json :=
  .obj [("data", .obj [("id", .str rid)])]

/-- The identity payload of the round-trip scenario. -/
def roundTripIdentity : Json :=
  .obj [("data", .obj [("user", .obj [("id", .str "u1")]),
                       ("balance", .obj [("value", .num 42)]),
                       ("is_limited_account", .bool false)])]

/-- The integration state reached by initializing with the round-trip
identity payload, token `"tok"`, user agent `"ua"` and an empty transaction
history. -/
def roundTripIntegration : VenmoIntegration :=
  { url := "https://api.venmo.com/v1"
    user_agent := "ua"
    authorization_token := some "tok"
    headers := [("User-Agent", "ua"), ("Content-Type", "application/json"),
                ("Authorization", "Bearer tok")]
    identityJson := some roundTripIdentity
    transactionJson := some (.arr [])
    is_limited_account := some (.bool false) }

/- Lemmas about the resolver scan. -/

theorem jsonEqStr_true_iff (j : Json) (s : String) :
    jsonEqStr j s = true ↔ j = .str s := by
  cases j <;> simp [jsonEqStr]

theorem lastWins_nil (c : Json → Bool) (f : Json → Option Json) (a0 : Option Json) :
    lastWins c f [] a0 = a0 := rfl

theorem lastWins_cons (c : Json → Bool) (f : Json → Option Json) (pm : Json)
    (w : List Json) (a0 : Option Json) :
    lastWins c f (pm :: w) a0 = lastWins c f w (if c pm then f pm else a0) := rfl

theorem lastWins_false (c : Json → Bool) (f : Json → Option Json) :
    ∀ (w : List Json) (a0 : Option Json), (∀ pm ∈ w, c pm = false) →
      lastWins c f w a0 = a0
  | [], _, _ => rfl
  | pm :: w, a0, h => by
    rw [lastWins_cons, if_neg (by simp [h pm (by simp)])]
    exact lastWins_false c f w a0 (fun x hx => h x (by simp [hx]))

theorem lastWins_append (c : Json → Bool) (f : Json → Option Json)
    (w1 w2 : List Json) (a0 : Option Json) :
    lastWins c f (w1 ++ w2) a0 = lastWins c f w2 (lastWins c f w1 a0) := by
  simp [lastWins, List.foldl_append]

theorem lastWins_mem (c : Json → Bool) (f : Json → Option Json) :
    ∀ (w : List Json) (a0 x : Option Json), lastWins c f w a0 = x →
      (∃ pm ∈ w, c pm = true ∧ f pm = x) ∨ x = a0
  | [], _, _, h => .inr h.symm
  | pm :: w, a0, x, h => by
    rw [lastWins_cons] at h
    rcases lastWins_mem c f w _ x h with hmem | heq
    · obtain ⟨q, hq, hcq, hfq⟩ := hmem
      exact .inl ⟨q, by simp [hq], hcq, hfq⟩
    · by_cases hc : c pm = true
      · rw [if_pos hc] at heq
        exact .inl ⟨pm, by simp, hc, heq.symm⟩
      · rw [if_neg hc] at heq
        exact .inr heq

/-- One well-formed scan step, characterised by the three independent
last-wins updates. -/
theorem scanStep_wf (nl : Bool) (amt : Int) (p b d : Option Json) (pm : Json)
    (h : wellFormedInstrument nl pm = true) :
    scanStep nl amt (p, b, d) pm =
      .ok (if qualifiesPrimary nl amt pm then idValue pm else p,
           if isBackupRole pm then idValue pm else b,
           if isActiveOther pm then idValue pm else d) := by
  unfold wellFormedInstrument at h
  unfold scanStep qualifiesPrimary isBackupRole isActiveOther idValue
  cases hrole : safe_get pm ["roles", "peerPayments"] "get_payment_methods" with
  | error e => rw [hrole] at h; exact absurd h (by simp)
  | ok role =>
    rw [hrole] at h
    simp only at h ⊢
    obtain ⟨i, hidv⟩ : ∃ i, safe_get pm ["id"] "get_payment_methods" = .ok i := by
      cases hi : safe_get pm ["id"] "get_payment_methods" with
      | error e => rw [hi] at h; simp at h
      | ok i => exact ⟨i, rfl⟩
    by_cases hp : (jsonEqStr role "primary" && nl) = true
    · have hrs : role = .str "primary" :=
        (jsonEqStr_true_iff role "primary").mp (Bool.and_elim_left hp)
      have hb : jsonEqStr role "backup" = false := by rw [hrs]; rfl
      have hn : jsonEqStr role "none" = false := by rw [hrs]; rfl
      simp only [hp] at h
      cases hbal : safe_get pm ["metadata", "availableBalance", "value"]
          "get_payment_methods" with
      | error e => simp only [hbal] at h; simp at h
      | ok bal =>
        simp only [hbal] at h
        cases bal with
        | num v =>
          by_cases hamt : amt ≤ v
          · simp [hp, hb, hn, hbal, hidv, hamt]
          · simp [hp, hb, hn, hbal, hidv, hamt]
        | null => simp at h
        | bool x => simp at h
        | str x => simp at h
        | arr x => simp at h
        | obj x => simp at h
    · rw [Bool.not_eq_true] at hp
      by_cases hb : jsonEqStr role "backup" = true
      · have hrs : role = .str "backup" := (jsonEqStr_true_iff role "backup").mp hb
        have hn : jsonEqStr role "none" = false := by rw [hrs]; rfl
        simp [hp, hb, hn, hidv]
      · rw [Bool.not_eq_true] at hb
        by_cases hn : (jsonEqStr role "none" &&
            optJsonEqStr (expirationStatusOf pm) "active") = true
        · simp [hp, hb, hn, hidv]
        · rw [Bool.not_eq_true] at hn
          simp [hp, hb, hn]

/-- A well-formed scan never raises, and its three accumulators are the
three last-wins folds. -/
theorem scanWallet_wf (nl : Bool) (amt : Int) :
    ∀ (w : List Json) (p b d : Option Json),
      (∀ pm ∈ w, wellFormedInstrument nl pm = true) →
      scanWallet nl amt w (p, b, d) =
        .ok (primaryAfter nl amt w p, backupAfter w b, doubleAfter w d)
  | [], _, _, _, _ => rfl
  | pm :: rest, p, b, d, h => by
    have hpm : wellFormedInstrument nl pm = true := h pm (by simp)
    have hrest : ∀ x ∈ rest, wellFormedInstrument nl x = true :=
      fun x hx => h x (by simp [hx])
    simp only [scanWallet, scanStep_wf nl amt p b d pm hpm]
    rw [scanWallet_wf nl amt rest _ _ _ hrest]
    rfl

/-- Evaluating `get_payment_methods` on a well-shaped wallet response is the resolver
over the instrument list. -/
theorem get_payment_methods_wallet (lim : Option Json) (amt : Int)
    (w : List Json) :
    get_payment_methods lim amt (walletResponse w) =
      resolveWallet (pyNot lim) amt w := rfl

/-- The resolver on a well-formed wallet: the priority ladder over the three
last-wins folds. -/
theorem resolveWallet_wf (nl : Bool) (amt : Int) (w : List Json)
    (h : ∀ pm ∈ w, wellFormedInstrument nl pm = true) :
    resolveWallet nl amt w =
      (if optTruthy (primaryAfter nl amt w none) then .ok (primaryAfter nl amt w none)
       else if optTruthy (backupAfter w none) then .ok (backupAfter w none)
       else if optTruthy (doubleAfter w none) then .ok (doubleAfter w none)
       else .ok none) := by
  unfold resolveWallet
  rw [scanWallet_wf nl amt w none none none h]

/-- A resolved funding source is always truthy: falsy candidates fall
through the ladder and are never returned. -/
theorem resolved_truthy (lim : Option Json) (amt : Int) (resp j : Json)
    (h : get_payment_methods lim amt resp = .ok (some j)) : pyTruthy j = true := by
  unfold get_payment_methods at h
  cases hw : safe_get resp ["data", "profile", "wallet"] "get_payment_methods" with
  | error e => rw [hw] at h; simp at h
  | ok wj =>
    rw [hw] at h
    cases wj with
    | arr wallet =>
      simp only at h
      unfold resolveWallet at h
      cases hs : scanWallet (pyNot lim) amt wallet (none, none, none) with
      | error e => rw [hs] at h; simp at h
      | ok acc =>
        rw [hs] at h
        obtain ⟨p, b, d⟩ := acc
        simp only at h
        by_cases hp : optTruthy p = true
        · rw [if_pos hp] at h
          injection h with hpj
          subst hpj
          simpa [optTruthy] using hp
        · rw [if_neg hp] at h
          by_cases hb : optTruthy b = true
          · rw [if_pos hb] at h
            injection h with hbj
            subst hbj
            simpa [optTruthy] using hb
          · rw [if_neg hb] at h
            by_cases hd : optTruthy d = true
            · rw [if_pos hd] at h
              injection h with hdj
              subst hdj
              simpa [optTruthy] using hd
            · rw [if_neg hd] at h
              simp at h
    | null => simp at h
    | bool x => simp at h
    | num x => simp at h
    | str x => simp at h
    | obj x => simp at h

/-- A transfer body is only ever built from a truthy resolved funding
source. -/
theorem pay_user_ok_funding (lim : Option Json) (uresp wresp : Json)
    (amount : Int) (note privacy : String) (body : PaymentBody)
    (h : pay_user lim uresp wresp amount note privacy = .ok body) :
    get_payment_methods lim amount wresp = .ok (some body.funding_source_id) ∧
      pyTruthy body.funding_source_id = true := by
  unfold pay_user at h
  cases hu : safe_get uresp ["data", "id"] "pay_user" with
  | error e => rw [hu] at h; simp at h
  | ok rid =>
    rw [hu] at h
    cases hf : get_payment_methods lim amount wresp with
    | error e => rw [hf] at h; simp at h
    | ok fsrc =>
      rw [hf] at h
      cases fsrc with
      | none => simp at h
      | some fid =>
        simp only at h
        by_cases ht : pyTruthy fid = true
        · rw [if_pos ht] at h
          injection h with hbody
          subst hbody
          exact ⟨rfl, ht⟩
        · rw [if_neg ht] at h
          simp at h

/-- A limited session disables the primary-candidate check: with
`notLimited = false` no instrument ever qualifies as primary. -/
theorem qualifiesPrimary_false (amt : Int) (pm : Json) :
    qualifiesPrimary false amt pm = false := by
  unfold qualifiesPrimary
  cases safe_get pm ["roles", "peerPayments"] "get_payment_methods" <;> simp

/- Claims. -/

/-- C1 counterexample: the claim as stated is false.  This wallet contains a
qualifying primary instrument (role `primary`, balance 100 ≥ 10, session not
limited) whose id is the empty string — a falsy Python value — together with
a backup instrument `"B"`; `get_payment_methods` returns the backup id
`"B"`, not the primary instrument's id. -/
theorem c1_counterexample :
    qualifiesPrimary (pyNot (some (.bool false))) 10 (balanceInstrument "" 100) = true ∧
    isBackupRole (backupInstrument "B") = true ∧
    get_payment_methods (some (.bool false)) 10
      (walletResponse [balanceInstrument "" 100, backupInstrument "B"]) =
      .ok (some (.str "B")) :=
  ⟨rfl, rfl, rfl⟩

/-- C1 (amended): for every well-formed wallet whose scan records a truthy
primary candidate — the id of the last-scanned primary-role instrument with
available balance ≥ amount — a non-limited-session resolution returns
exactly that id, and that id belongs to a qualifying primary instrument of
the wallet (hence it is never a backup or secondary-backup id). -/
theorem c1_primary_resolution (lim : Option Json) (amount : Int)
    (w : List Json) (i : Json)
    (hwf : ∀ pm ∈ w, wellFormedInstrument (pyNot lim) pm = true)
    (hlast : primaryAfter (pyNot lim) amount w none = some i)
    (ht : pyTruthy i = true) :
    get_payment_methods lim amount (walletResponse w) = .ok (some i) ∧
    ∃ pm ∈ w, qualifiesPrimary (pyNot lim) amount pm = true ∧ idValue pm = some i := by
  constructor
  · rw [get_payment_methods_wallet, resolveWallet_wf _ _ _ hwf, hlast]
    simp [optTruthy, ht]
  · rcases lastWins_mem (qualifiesPrimary (pyNot lim) amount) idValue w none
        (some i) hlast with hmem | heq
    · exact hmem
    · exact absurd heq (by simp)

/-- C1 witness: a wallet with one qualifying primary `"P1"` (balance 50 ≥
10) and a backup `"B"`; resolution returns `"P1"`. -/
theorem c1_primary_resolution_witness :
    get_payment_methods (some (.bool false)) 10
      (walletResponse [balanceInstrument "P1" 50, backupInstrument "B"]) =
      .ok (some (.str "P1")) ∧
    ∃ pm ∈ [balanceInstrument "P1" 50, backupInstrument "B"],
      qualifiesPrimary (pyNot (some (.bool false))) 10 pm = true ∧
      idValue pm = some (.str "P1") :=
  c1_primary_resolution (some (.bool false)) 10
    [balanceInstrument "P1" 50, backupInstrument "B"] (.str "P1")
    (by decide) rfl rfl

/-- C2 counterexample: the claim as stated is false.  With the
limited-account flag unknown (`None`, never resolved), the claim requires
the primary-balance path to be skipped and the backup `"B"` to be returned;
the code evaluates `not None` to `True`, takes the primary path, and returns
`"P"`. -/
theorem c2_counterexample :
    get_payment_methods none 10
      (walletResponse [balanceInstrument "P" 100, backupInstrument "B"]) =
      .ok (some (.str "P")) ∧
    Json.str "P" ≠ Json.str "B" :=
  ⟨rfl, by simp⟩

/-- C2 (amended): when the limited-account flag is explicitly `true` the
primary-balance path is skipped even for a qualifying primary instrument and
resolution falls through to backup, then secondary-backup, then no source;
but an unknown flag (`None`) is treated as not limited (`not None` is `True`
in Python), so resolution under an unknown flag coincides with resolution
under a flag explicitly `false`. -/
theorem c2_limited_fallthrough :
    (∀ (amount : Int) (w : List Json),
       (∀ pm ∈ w, wellFormedInstrument false pm = true) →
       get_payment_methods (some (.bool true)) amount (walletResponse w) =
         (if optTruthy (backupAfter w none) then .ok (backupAfter w none)
          else if optTruthy (doubleAfter w none) then .ok (doubleAfter w none)
          else .ok none)) ∧
    (∀ (amount : Int) (response : Json),
       get_payment_methods none amount response =
         get_payment_methods (some (.bool false)) amount response) := by
  constructor
  · intro amount w hwf
    rw [get_payment_methods_wallet]
    show resolveWallet false amount w = _
    rw [resolveWallet_wf false amount w hwf]
    rw [show primaryAfter false amount w none = none from
      lastWins_false _ _ w none (fun pm _ => qualifiesPrimary_false amount pm)]
    rfl
  · intro amount response
    rfl

/-- C2 witness: limited session, qualifying primary `"P"` and backup `"B"`;
resolution skips the primary and falls through to the backup. -/
theorem c2_limited_fallthrough_witness :
    get_payment_methods (some (.bool true)) 10
      (walletResponse [balanceInstrument "P" 100, backupInstrument "B"]) =
      (if optTruthy (backupAfter [balanceInstrument "P" 100, backupInstrument "B"] none)
       then .ok (backupAfter [balanceInstrument "P" 100, backupInstrument "B"] none)
       else if optTruthy (doubleAfter [balanceInstrument "P" 100, backupInstrument "B"] none)
       then .ok (doubleAfter [balanceInstrument "P" 100, backupInstrument "B"] none)
       else .ok none) :=
  c2_limited_fallthrough.1 10 [balanceInstrument "P" 100, backupInstrument "B"] (by decide)

/-- C3: a wallet with no qualifying primary, no backup-role and no
active-other instrument resolves to no source (`None`), and `pay_user` on it
fails with the `"No funding source available."` validation error instead of
returning a transfer body (so the transfer POST is never issued); moreover a
transfer body is only ever produced from a truthy resolved funding source
id. -/
theorem c3_no_funding_validation :
    (∀ (lim : Option Json) (uresp : Json) (w : List Json) (amount : Int)
       (note privacy : String) (rid : Json),
       safe_get uresp ["data", "id"] "pay_user" = .ok rid →
       (∀ pm ∈ w, wellFormedInstrument (pyNot lim) pm = true) →
       (∀ pm ∈ w, qualifiesPrimary (pyNot lim) amount pm = false) →
       (∀ pm ∈ w, isBackupRole pm = false) →
       (∀ pm ∈ w, isActiveOther pm = false) →
       get_payment_methods lim amount (walletResponse w) = .ok none ∧
       pay_user lim uresp (walletResponse w) amount note privacy =
         .error (.apiError integration_name "No funding source available." 500 none)) ∧
    (∀ (lim : Option Json) (uresp wresp : Json) (amount : Int)
       (note privacy : String) (body : PaymentBody),
       pay_user lim uresp wresp amount note privacy = .ok body →
       get_payment_methods lim amount wresp = .ok (some body.funding_source_id) ∧
       pyTruthy body.funding_source_id = true) := by
  constructor
  · intro lim uresp w amount note privacy rid hu hwf hq hb hd
    have hres : get_payment_methods lim amount (walletResponse w) = .ok none := by
      rw [get_payment_methods_wallet, resolveWallet_wf _ _ _ hwf]
      rw [show primaryAfter (pyNot lim) amount w none = none from
            lastWins_false _ _ w none hq,
          show backupAfter w none = none from lastWins_false _ _ w none hb,
          show doubleAfter w none = none from lastWins_false _ _ w none hd]
      rfl
    refine ⟨hres, ?_⟩
    unfold pay_user
    simp only [hu, hres]
  · exact pay_user_ok_funding

/-- C3 witness: one primary instrument with balance 3 < 10, nothing else;
resolution yields no source and `pay_user` raises the validation error. -/
theorem c3_no_funding_validation_witness :
    get_payment_methods (some (.bool false)) 10
      (walletResponse [balanceInstrument "P" 3]) = .ok none ∧
    pay_user (some (.bool false)) (userResponse "r1")
      (walletResponse [balanceInstrument "P" 3]) 10 "lunch" "private" =
      .error (.apiError integration_name "No funding source available." 500 none) :=
  c3_no_funding_validation.1 (some (.bool false)) (userResponse "r1")
    [balanceInstrument "P" 3] 10 "lunch" "private" (.str "r1")
    rfl (by decide) (by decide) (by decide) (by decide)

/-- C4: `request_user` posts the negated amount.  The embedded
`request_user` takes no wallet and no limited-account input at all: no
funding-source resolution occurs regardless of funding-source
availability. -/
theorem c4_request_negates_amount (uresp : Json) (amount : Int)
    (note privacy : String) (rid : Json)
    (h : safe_get uresp ["data", "id"] "request_user" = .ok rid) :
    request_user uresp amount note privacy =
      .ok { user_id := rid, audience := privacy, amount := -amount, note := note } := by
  unfold request_user
  simp only [h]

/-- C4 witness: `request_user` with amount 50 posts amount −50. -/
theorem c4_request_negates_amount_witness :
    request_user (userResponse "r1") 50 "note" "private" =
      .ok { user_id := .str "r1", audience := "private", amount := -50,
            note := "note" } :=
  c4_request_negates_amount (userResponse "r1") 50 "note" "private" (.str "r1") rfl

/-- C5: response normalization.  For a body whose upstream error message is
the string `msg` and whose upstream code is `code`: status 200 returns the
body; 401 raises the auth error carrying the original status and the
upstream code; 400 with message exactly `"Resource not found."` raises the
not-found API error; any other non-200 raises the generic API error whose
message is the upstream message followed by `" (HTTP {status})"`, carrying
status and code. -/
theorem c5_handle_response_classification (status : Nat) (body : Json)
    (msg : String) (code : Json)
    (hm : pyDictGet ((pyDictGet body "error").getD (.obj [])) "message" =
      some (.str msg))
    (hc : pyDictGet ((pyDictGet body "error").getD (.obj [])) "code" = some code) :
    (status = 200 → handle_response status body = .ok body) ∧
    (status = 401 →
      handle_response status body =
        .error (.authError ("Venmo: " ++ msg) status code)) ∧
    (status = 400 → msg = "Resource not found." →
      handle_response status body =
        .error (.apiError integration_name "Resource not found." status (some code))) ∧
    (status ≠ 200 → status ≠ 401 → (status = 400 → msg ≠ "Resource not found.") →
      handle_response status body =
        .error (.apiError integration_name
          (msg ++ " (HTTP " ++ toString status ++ ")") status (some code))) := by
  refine ⟨?_, ?_, ?_, ?_⟩
  · intro h
    subst h
    simp [handle_response]
  · intro h
    subst h
    simp [handle_response, hm, hc, pyStr]
  · intro h hmsg
    subst h
    subst hmsg
    simp [handle_response, hm, hc, pyStr, jsonEqStr]
  · intro h200 h401 hnf
    unfold handle_response
    rw [if_neg h200, if_neg h401, if_neg ?_]
    · simp [hm, hc, pyStr]
    · rintro ⟨rfl, hj⟩
      rw [hm, Option.getD_some] at hj
      have he : Json.str msg = .str "Resource not found." :=
        (jsonEqStr_true_iff _ _).mp hj
      injection he with he'
      exact hnf rfl he'

/-- C5 witness: a 401 body with message `"Bad creds"` and code 261 raises
the auth error preserving status and code. -/
theorem c5_handle_response_classification_witness :
    handle_response 401
      (.obj [("error", .obj [("message", .str "Bad creds"), ("code", .num 261)])]) =
      .error (.authError "Venmo: Bad creds" 401 (.num 261)) :=
  (c5_handle_response_classification 401
    (.obj [("error", .obj [("message", .str "Bad creds"), ("code", .num 261)])])
    "Bad creds" (.num 261) rfl rfl).2.1 rfl

/-- C6 counterexample: the claim as stated is false.  Initializing with the
round-trip identity payload caches it, but `get_balance` returns the JSON
value cached at `data.balance` — the object `{value: 42}` — not the number
42. -/
theorem c6_counterexample :
    init_integration (venmo_construct (fun _ => "ua") (some "ua")) "tok"
      roundTripIdentity (.arr []) = .ok roundTripIntegration ∧
    get_balance roundTripIntegration = .ok (.obj [("value", .num 42)]) ∧
    Json.obj [("value", .num 42)] ≠ Json.num 42 :=
  ⟨rfl, rfl, by simp⟩

/-- C6 (amended): after initialization caches the round-trip identity
payload, `get_balance` reads only the cached snapshot and returns the value
at `data.balance` — the object `{value: 42}` — and `get_personal_transaction`
issues its GET against `/stories/target-or-actor/u1`, built from the cached
user id. -/
theorem c6_roundtrip_cached_reads :
    init_integration (venmo_construct (fun _ => "ua") (some "ua")) "tok"
      roundTripIdentity (.arr []) = .ok roundTripIntegration ∧
    get_balance roundTripIntegration = .ok (.obj [("value", .num 42)]) ∧
    get_personal_transaction_url roundTripIntegration =
      .ok "https://api.venmo.com/v1/stories/target-or-actor/u1" :=
  ⟨rfl, rfl, rfl⟩

/-- C7: backup outranks the active-other fallback — the two-instrument
scenario resolves to `"A"` — and when several backup-role instruments exist
the backup candidate recorded by the scan is the id of the last one
scanned. -/
theorem c7_backup_outranks :
    get_payment_methods (some (.bool false)) 10
      (walletResponse [backupInstrument "A", activeCardInstrument "B"]) =
      .ok (some (.str "A")) ∧
    (∀ (nl : Bool) (amount : Int) (w1 w2 : List Json) (pm : Json),
       (∀ x ∈ w1 ++ pm :: w2, wellFormedInstrument nl x = true) →
       isBackupRole pm = true →
       (∀ x ∈ w2, isBackupRole x = false) →
       scanWallet nl amount (w1 ++ pm :: w2) (none, none, none) =
         .ok (primaryAfter nl amount (w1 ++ pm :: w2) none, idValue pm,
              doubleAfter (w1 ++ pm :: w2) none)) := by
  constructor
  · rfl
  · intro nl amount w1 w2 pm hwf hb hnb
    rw [scanWallet_wf nl amount _ none none none hwf]
    have hlast : backupAfter (w1 ++ pm :: w2) none = idValue pm := by
      unfold backupAfter
      rw [lastWins_append, lastWins_cons, if_pos hb]
      exact lastWins_false _ _ w2 _ hnb
    rw [hlast]

/-- C7 witness: two backup instruments `"X"` then `"Y"`; the scan records
the later `"Y"` as the backup candidate. -/
theorem c7_backup_outranks_witness :
    scanWallet true 10 ([backupInstrument "X"] ++ backupInstrument "Y" :: [])
      (none, none, none) =
      .ok (primaryAfter true 10 ([backupInstrument "X"] ++ backupInstrument "Y" :: []) none,
           idValue (backupInstrument "Y"),
           doubleAfter ([backupInstrument "X"] ++ backupInstrument "Y" :: []) none) :=
  c7_backup_outranks.2 true 10 [backupInstrument "X"] [] (backupInstrument "Y")
    (by decide) rfl (by decide)

/-- C8 counterexample: the claim as stated is false.  With the draw stream
`n ↦ "ua" ++ n`, every instance constructed without a supplied user agent
gets `"ua0"` — the single draw taken when the class body was evaluated —
whereas per-instance randomization would give the second default-constructed
instance the fresh draw `"ua1"`. -/
theorem c8_counterexample :
    (venmo_construct (fun n => "ua" ++ toString n) none).user_agent = "ua0" ∧
    user_agent_per_instance_claim (fun n => "ua" ++ toString n) 1 none = "ua1" ∧
    ("ua0" : String) ≠ "ua1" :=
  ⟨rfl, rfl, by decide⟩

/-- C8 (amended): initialization builds the headers as
`Authorization: Bearer {token}`, JSON content type and the instance's user
agent — which is the caller-supplied string if one was given, and otherwise
the single random draw taken at class-definition time, shared by all
default-constructed instances; `initialize` then caches the identity and
transaction responses and extracts the limited-account flag. -/
theorem c8_headers_and_cache (draws : Nat → String) (ua : Option String)
    (token : String) (idResp trResp : Json) (flag : Json) (uid : String)
    (hflag : safe_get idResp ["data", "is_limited_account"] "get_identity" = .ok flag)
    (huid : safe_get idResp ["data", "user", "id"] "get_personal_transaction" =
      .ok (.str uid)) :
    init_integration (venmo_construct draws ua) token idResp trResp =
      .ok { url := "https://api.venmo.com/v1"
            user_agent := ua.getD (draws 0)
            authorization_token := some token
            headers := [("User-Agent", ua.getD (draws 0)),
                        ("Content-Type", "application/json"),
                        ("Authorization", "Bearer " ++ token)]
            identityJson := some idResp
            transactionJson := some trResp
            is_limited_account := some flag } := by
  have huid' : safe_get ((some idResp).getD .null) ["data", "user", "id"]
      "get_personal_transaction" = .ok (.str uid) := huid
  unfold init_integration get_identity get_personal_transaction_url venmo_construct
  simp only [hflag, huid']

/-- C8 witness: concrete initialization with the round-trip payload. -/
theorem c8_headers_and_cache_witness :
    init_integration (venmo_construct (fun _ => "ua") none) "tok"
      roundTripIdentity (.arr []) =
      .ok { url := "https://api.venmo.com/v1"
            user_agent := (none : Option String).getD ((fun _ => "ua") 0)
            authorization_token := some "tok"
            headers := [("User-Agent", (none : Option String).getD ((fun _ => "ua") 0)),
                        ("Content-Type", "application/json"),
                        ("Authorization", "Bearer " ++ "tok")]
            identityJson := some roundTripIdentity
            transactionJson := some (.arr [])
            is_limited_account := some (.bool false) } :=
  c8_headers_and_cache (fun _ => "ua") none "tok" roundTripIdentity (.arr [])
    (.bool false) "u1" rfl rfl

/-- C9: `pay_user` copies the caller-supplied amount into the transfer body
unchanged, with no positivity check — given a resolved funding source, a
negative amount is posted as-is, yielding a request-shaped transfer instead
of failing. -/
theorem c9_pay_amount_unchanged (lim : Option Json) (uresp wresp : Json)
    (amount : Int) (note privacy : String) (rid fid : Json)
    (hu : safe_get uresp ["data", "id"] "pay_user" = .ok rid)
    (hf : get_payment_methods lim amount wresp = .ok (some fid)) :
    pay_user lim uresp wresp amount note privacy =
      .ok { funding_source_id := fid, user_id := rid, audience := privacy,
            amount := amount, note := note } := by
  have ht : pyTruthy fid = true := resolved_truthy lim amount wresp fid hf
  unfold pay_user
  simp only [hu, hf, ht, if_true]

/-- C9 witness: a negative amount −5 with a backup funding source is posted
unchanged as −5. -/
theorem c9_pay_amount_unchanged_witness :
    pay_user (some (.bool false)) (userResponse "r1")
      (walletResponse [backupInstrument "B"]) (-5) "note" "private" =
      .ok { funding_source_id := .str "B", user_id := .str "r1",
            audience := "private", amount := -5, note := "note" } :=
  c9_pay_amount_unchanged (some (.bool false)) (userResponse "r1")
    (walletResponse [backupInstrument "B"]) (-5) "note" "private"
    (.str "r1") (.str "B") rfl rfl

/-- C10: funding-source presence is decided by Python truthiness — a
resolved id is always truthy; a falsy candidate id (here the empty string)
makes the ladder fall through to the next tier or to `None`; and `pay_user`
on an all-falsy wallet raises the no-funding-source error instead of
posting. -/
theorem c10_falsy_fallthrough :
    (∀ (lim : Option Json) (amount : Int) (resp j : Json),
       get_payment_methods lim amount resp = .ok (some j) → pyTruthy j = true) ∧
    get_payment_methods (some (.bool false)) 10
      (walletResponse [balanceInstrument "" 100, backupInstrument "B2"]) =
      .ok (some (.str "B2")) ∧
    get_payment_methods (some (.bool false)) 10
      (walletResponse [balanceInstrument "" 100, backupInstrument "",
                       activeCardInstrument ""]) = .ok none ∧
    pay_user (some (.bool false)) (userResponse "r1")
      (walletResponse [balanceInstrument "" 100, backupInstrument "",
                       activeCardInstrument ""]) 10 "note" "private" =
      .error (.apiError integration_name "No funding source available." 500 none) :=
  ⟨resolved_truthy, rfl, rfl, rfl⟩

/-- C10 witness: instantiating the truthiness invariant at a concrete
resolution. -/
theorem c10_falsy_fallthrough_witness : pyTruthy (.str "B2") = true :=
  c10_falsy_fallthrough.1 (some (.bool false)) 10
    (walletResponse [backupInstrument "B2"]) (.str "B2") rfl

end Venmo
